import Mathlib

/-!
Verification development for the invoiceninja-hoa-inform repository.

The repository is a TypeScript reporting pipeline: it resolves a named
reporting period into a date interval, filters financial records
(expenses, invoices, payments) by that interval, aggregates them
(totals, statistics, groupings), renders a PDF and emails it.

This file gives a shallow embedding of the data-processing core
(`src/lib/dataUtils.ts`, the orchestration in `src/index.ts`, and the
relevant collaborator surfaces) and proves or refutes the frozen claims
about it.

Modelling conventions:
* JavaScript numbers are modelled as `JSNum`: either a rational or NaN.
  The concrete amounts occurring in the repository fixtures are small
  decimals, exactly representable as doubles, so rational arithmetic
  agrees with IEEE double arithmetic on every value this file evaluates.
  Division by zero (which yields Infinity in JavaScript) occurs on no
  reachable path of the embedded code (the only division is guarded by a
  non-empty check), and is mapped to NaN.
* `parseFloat` is modelled by `jsParseFloat`, implementing the
  leading-prefix decimal grammar (sign, digits, fraction, exponent).
  The special literal Infinity is not modelled; no claim involves it.
* Dates are modelled as calendar dates `SimpleDate`; an Invalid Date is
  `Option.none`.  `parseISO` is modelled on date-only ISO strings
  (yyyy-MM-dd); every other string maps to Invalid Date, which matches
  date-fns on all inputs appearing in the claims.
* The repository pins date-fns ^3.0.0.  In v3, `isWithinInterval` sorts
  the two interval bounds before testing membership (reversed intervals
  are normalized, and no RangeError is thrown), while `format` still
  throws a RangeError on an Invalid Date.  Both behaviours are embedded.
-/

/-!
Rational arithmetic.  Mathlib's `Rat.add` and friends do not reduce
inside the kernel, so the embedding uses its own `mkRat`-based
operations, each proved equal to the corresponding Mathlib operation.
-/

/-- Kernel-computable rational addition. -/
def qAdd (a b : ℚ) : ℚ := mkRat (a.num * b.den + b.num * a.den) (a.den * b.den)

/-- Kernel-computable rational negation. -/
def qNeg (a : ℚ) : ℚ := mkRat (-a.num) a.den

/-- Kernel-computable rational subtraction. -/
def qSub (a b : ℚ) : ℚ := qAdd a (qNeg b)

/-- Kernel-computable rational multiplication. -/
def qMul (a b : ℚ) : ℚ := mkRat (a.num * b.num) (a.den * b.den)

/-- Kernel-computable rational inverse. -/
def qInv (b : ℚ) : ℚ :=
  if b.num < 0 then mkRat (-(b.den : Int)) b.num.natAbs
  else mkRat (b.den : Int) b.num.natAbs

/-- Kernel-computable rational division. -/
def qDiv (a b : ℚ) : ℚ := qMul a (qInv b)

theorem qAdd_eq (a b : ℚ) : qAdd a b = a + b := by
  have ha : ((a.den : ℤ)) ≠ 0 := by exact_mod_cast a.den_nz
  have hb : ((b.den : ℤ)) ≠ 0 := by exact_mod_cast b.den_nz
  rw [qAdd, Rat.mkRat_eq_divInt]
  conv_rhs => rw [← Rat.num_divInt_den a, ← Rat.num_divInt_den b,
    Rat.divInt_add_divInt _ _ ha hb]
  push_cast
  ring_nf

theorem qNeg_eq (a : ℚ) : qNeg a = -a := by
  rw [qNeg, Rat.mkRat_eq_divInt, ← Rat.neg_divInt, Rat.num_divInt_den]

theorem qSub_eq (a b : ℚ) : qSub a b = a - b := by
  rw [qSub, qAdd_eq, qNeg_eq, sub_eq_add_neg]

theorem qMul_eq (a b : ℚ) : qMul a b = a * b := by
  rw [qMul, Rat.mkRat_eq_divInt]
  conv_rhs => rw [← Rat.num_divInt_den a, ← Rat.num_divInt_den b,
    Rat.divInt_mul_divInt']
  push_cast
  ring_nf

theorem qInv_eq (b : ℚ) : qInv b = b⁻¹ := by
  rw [qInv, Rat.inv_def']
  by_cases h : b.num < 0
  · rw [if_pos h, Rat.mkRat_eq_divInt]
    have hnum : b.num = -((b.num.natAbs : ℤ)) := by omega
    conv_rhs => rw [hnum]
    rw [Rat.divInt_neg]
  · rw [if_neg h, Rat.mkRat_eq_divInt]
    have hnat : ((b.num.natAbs : ℤ)) = b.num := Int.natAbs_of_nonneg (le_of_not_lt h)
    rw [hnat]

theorem qDiv_eq (a b : ℚ) : qDiv a b = a / b := by
  rw [qDiv, qMul_eq, qInv_eq, div_eq_mul_inv]

/-- A JavaScript number: a rational value or NaN. -/
inductive JSNum where
  | nan : JSNum
  | num (q : ℚ) : JSNum
deriving DecidableEq

/-- JavaScript addition: NaN absorbs. -/
def jsAdd : JSNum → JSNum → JSNum
  | .num a, .num b => .num (qAdd a b)
  | _, _ => .nan

/-- JavaScript subtraction: NaN absorbs. -/
def jsSub : JSNum → JSNum → JSNum
  | .num a, .num b => .num (qSub a b)
  | _, _ => .nan

/-- JavaScript division; NaN absorbs.  Division by zero gives Infinity in
JavaScript; it is unreachable in the embedded code (guarded by a
non-empty check) and mapped to NaN here. -/
def jsDiv : JSNum → JSNum → JSNum
  | .num a, .num b => if b = 0 then .nan else .num (qDiv a b)
  | _, _ => .nan

/-- JavaScript Math.min on two arguments: NaN absorbs. -/
def jsMin : JSNum → JSNum → JSNum
  | .num a, .num b => .num (min a b)
  | _, _ => .nan

/-- JavaScript Math.max on two arguments: NaN absorbs. -/
def jsMax : JSNum → JSNum → JSNum
  | .num a, .num b => .num (max a b)
  | _, _ => .nan

/-- Is this JavaScript number strictly greater than zero (NaN compares
false, as in JavaScript)? -/
def jsGtZero : JSNum → Bool
  | .num q => decide (0 < q)
  | .nan => false

/-- Accumulate a run of decimal digits: value, digit count, rest. -/
def takeDigitsAux : Nat → Nat → List Char → Nat × Nat × List Char
  | acc, n, [] => (acc, n, [])
  | acc, n, c :: cs =>
    if c.isDigit then takeDigitsAux (acc * 10 + (c.toNat - 48)) (n + 1) cs
    else (acc, n, c :: cs)

/-- Kernel-computable power of ten. -/
def pow10 : Nat → Nat
  | 0 => 1
  | n + 1 => 10 * pow10 n

/-- Model of the JavaScript parseFloat builtin: skip leading whitespace,
then read the longest prefix matching a signed decimal literal with
optional fraction and exponent; NaN when no digits were read.  The
rational value is exact (no rounding to binary floating point); every
value this development evaluates is exactly representable as a double,
so the model agrees with the builtin on them. -/
def jsParseFloat (s : String) : JSNum :=
  let cs := s.toList.dropWhile (fun c => c == ' ' || c == '\t' || c == '\n' || c == '\r')
  let sgnCs : Int × List Char :=
    match cs with
    | '-' :: r => (-1, r)
    | '+' :: r => (1, r)
    | _ => (1, cs)
  let ipart := takeDigitsAux 0 0 sgnCs.2
  let fpart : Nat × Nat × List Char :=
    match ipart.2.2 with
    | '.' :: r => takeDigitsAux 0 0 r
    | _ => (0, 0, ipart.2.2)
  if ipart.2.1 = 0 ∧ fpart.2.1 = 0 then .nan
  else
    let mantissa : ℚ :=
      mkRat (sgnCs.1 * ((ipart.1 : Int) * (pow10 fpart.2.1 : Int) + (fpart.1 : Int)))
        (pow10 fpart.2.1)
    let epart : Option (Int × Nat) :=
      match fpart.2.2 with
      | 'e' :: r | 'E' :: r =>
        match r with
        | '-' :: r2 => let d := takeDigitsAux 0 0 r2; some (-(d.1 : Int), d.2.1)
        | '+' :: r2 => let d := takeDigitsAux 0 0 r2; some ((d.1 : Int), d.2.1)
        | _ => let d := takeDigitsAux 0 0 r; some ((d.1 : Int), d.2.1)
      | _ => none
    match epart with
    | some (e, n) =>
      if n = 0 then .num mantissa
      else if 0 ≤ e then .num (qMul mantissa (mkRat (pow10 e.toNat : Int) 1))
      else .num (qMul mantissa (mkRat 1 (pow10 (-e).toNat)))
    | none => .num mantissa

/-- The runtime value sitting in a numeric record field: a number, a
string (the accounting API serializes some amounts as strings), or
absent (undefined). -/
inductive AmountVal where
  | num (q : ℚ)
  | str (s : String)
  | undef
deriving DecidableEq

/-- Embedding of parseFloat(String(x || 0)) from dataUtils: a falsy
field (undefined, 0, empty string) is replaced by 0 before parsing; a
number round-trips through String; a truthy string goes through
parseFloat. -/
def parseAmount : AmountVal → JSNum
  | .undef => .num 0
  | .num q => .num q
  | .str s => if s = "" then .num 0 else jsParseFloat s

/-- An object exposing a name field (the category / vendor / client
sub-object of the API payloads). -/
structure NamedRef where
  name : String
deriving DecidableEq

/-- The Expense record shape from invoiceNinjaClient.ts, with the
runtime-level optionality the data utilities defend against. -/
structure Expense where
  id : Option String := none
  amount : AmountVal := .undef
  date : Option String := none
  expense_date : Option String := none
  public_notes : Option String := none
  description : Option String := none
  vendor_name : Option String := none
  vendor : Option NamedRef := none
  category_name : Option String := none
  category : Option NamedRef := none
deriving DecidableEq

/-- This embeds the JavaScript expression a || b for an optional string
a with default b: the empty string is falsy. -/
def jsOrStr : Option String → String → String
  | some s, d => if s = "" then d else s
  | none, d => d

/-- Embedding of calculateTotal from dataUtils.ts: left fold of the
parsed amounts starting at 0. -/
def calculateTotal (expenses : List Expense) : JSNum :=
  expenses.foldl (fun total e => jsAdd total (parseAmount e.amount)) (.num 0)

/-- The grouping key of groupByCategory: category_name, else
category?.name, else the literal Uncategorized. -/
def expenseCategoryKey (e : Expense) : String :=
  jsOrStr e.category_name (jsOrStr (e.category.map NamedRef.name) ("Uncategorized"))

/-- One bucket of the grouped output of groupByCategory. -/
structure GroupedExpenses where
  expenses : List Expense
  total : JSNum
deriving DecidableEq

/-- One forEach step of groupByCategory: create the bucket for the key
when missing (members [], total 0), then push the record and add its
parsed amount.  The Record object is modelled as an insertion-ordered
association list. -/
def insertByKey (m : List (String × GroupedExpenses)) (k : String) (e : Expense) :
    List (String × GroupedExpenses) :=
  match m with
  | [] => [(k, ⟨[e], jsAdd (.num 0) (parseAmount e.amount)⟩)]
  | (k', b) :: rest =>
    if k' = k then (k', ⟨b.expenses ++ [e], jsAdd b.total (parseAmount e.amount)⟩) :: rest
    else (k', b) :: insertByKey rest k e

/-- Embedding of groupByCategory from dataUtils.ts. -/
def groupByCategory (expenses : List Expense) : List (String × GroupedExpenses) :=
  expenses.foldl (fun m e => insertByKey m (expenseCategoryKey e) e) []

/-- The members of the bucket stored under a key (empty when the key has
no bucket). -/
def bucketExpenses (m : List (String × GroupedExpenses)) (k : String) : List Expense :=
  match m.find? (fun p => p.1 == k) with
  | some p => p.2.expenses
  | none => []

/-- Concatenation of all bucket member lists, in bucket order. -/
def bucketsJoin (m : List (String × GroupedExpenses)) : List Expense :=
  m.foldr (fun p acc => p.2.expenses ++ acc) []

/-- Sum of the parsed amounts of a record list (the specification-level
reading of a subtotal). -/
def sumParsedExpenses (l : List Expense) : JSNum :=
  (l.map (fun e => parseAmount e.amount)).foldl jsAdd (.num 0)

/-- Fold of Math.min over a non-empty spread (Math.min(...amounts)); the
empty case is unreachable in the embedded code. -/
def jsMinList : List JSNum → JSNum
  | [] => .nan
  | a :: rest => rest.foldl jsMin a

/-- Fold of Math.max over a non-empty spread; empty case unreachable. -/
def jsMaxList : List JSNum → JSNum
  | [] => .nan
  | a :: rest => rest.foldl jsMax a

/-- The statistics object returned by getExpenseStats. -/
structure ExpenseStats where
  count : Nat
  total : JSNum
  average : JSNum
  min : JSNum
  max : JSNum
deriving DecidableEq

/-- Embedding of getExpenseStats from dataUtils.ts: all-zero on the
empty list, otherwise count, total, total divided by count, and the
Math.min / Math.max folds of the parsed amounts. -/
def getExpenseStats (expenses : List Expense) : ExpenseStats :=
  if expenses.length = 0 then ⟨0, .num 0, .num 0, .num 0, .num 0⟩
  else
    let amounts := expenses.map (fun e => parseAmount e.amount)
    let total := amounts.foldl jsAdd (.num 0)
    ⟨expenses.length, total, jsDiv total (.num expenses.length),
      jsMinList amounts, jsMaxList amounts⟩

/-!
Date model.  A valid Date is a calendar date; an Invalid Date (NaN
timestamp) is `none`.  All dates produced by the embedded code carry a
midnight local time, so ordering calendar dates lexicographically agrees
with ordering their timestamps.
-/

/-- A calendar date (year, month 1-12, day 1-31). -/
structure SimpleDate where
  year : Int
  month : Nat
  day : Nat
deriving DecidableEq

/-- The Gregorian leap-year rule.  The years handled by the program are
positive, where Lean's Int.emod agrees with the JavaScript remainder. -/
def isLeapYear (y : Int) : Bool :=
  (y % 4 == 0 && y % 100 != 0) || y % 400 == 0

/-- Number of days of a month in the Gregorian calendar. -/
def daysInMonth (y : Int) (m : Nat) : Nat :=
  if m = 2 then (if isLeapYear y then 29 else 28)
  else if m = 4 ∨ m = 6 ∨ m = 9 ∨ m = 11 then 30
  else 31

/-- date-fns startOfMonth: same month, day 1. -/
def startOfMonth (d : SimpleDate) : SimpleDate := ⟨d.year, d.month, 1⟩

/-- date-fns endOfMonth: same month, last calendar day. -/
def endOfMonth (d : SimpleDate) : SimpleDate := ⟨d.year, d.month, daysInMonth d.year d.month⟩

/-- date-fns startOfYear: January 1. -/
def startOfYear (d : SimpleDate) : SimpleDate := ⟨d.year, 1, 1⟩

/-- date-fns endOfYear: December 31. -/
def endOfYear (d : SimpleDate) : SimpleDate := ⟨d.year, 12, 31⟩

/-- date-fns subMonths(d, 1): previous month, day clamped to its length. -/
def subMonths1 (d : SimpleDate) : SimpleDate :=
  if d.month = 1 then ⟨d.year - 1, 12, min d.day (daysInMonth (d.year - 1) 12)⟩
  else ⟨d.year, d.month - 1, min d.day (daysInMonth d.year (d.month - 1))⟩

/-- date-fns subYears(d, 1): previous year, day clamped (Feb 29 to Feb 28). -/
def subYears1 (d : SimpleDate) : SimpleDate :=
  ⟨d.year - 1, d.month, min d.day (daysInMonth (d.year - 1) d.month)⟩

/-- Split a character list on the dash separator. -/
def splitDash : List Char → List (List Char)
  | [] => [[]]
  | c :: cs =>
    match splitDash cs with
    | [] => [[]]
    | g :: gs => if c = '-' then [] :: g :: gs else (c :: g) :: gs

/-- Numeric value of an all-digit character group; none otherwise. -/
def digitsVal (cs : List Char) : Option Nat :=
  if cs.length ≠ 0 ∧ cs.all Char.isDigit then some ((takeDigitsAux 0 0 cs).1) else none

/-- Model of date-fns parseISO restricted to the date-only calendar form
yyyy-MM-dd; every other string (including the empty string and free
text) yields an Invalid Date, as parseISO does on the inputs this
development evaluates.  Month and day are range-checked against the
calendar, as parseISO does. -/
def parseISO (s : String) : Option SimpleDate :=
  match splitDash s.toList with
  | [ys, ms, ds] =>
    if ys.length = 4 ∧ ms.length = 2 ∧ ds.length = 2 then
      match digitsVal ys, digitsVal ms, digitsVal ds with
      | some y, some m, some d =>
        if 1 ≤ m ∧ m ≤ 12 ∧ 1 ≤ d ∧ d ≤ daysInMonth (y : Int) m then
          some ⟨(y : Int), m, d⟩
        else none
      | _, _, _ => none
    else none
  | _ => none

/-- A total key preserving chronological order of calendar dates. -/
def dateKey (d : SimpleDate) : Int :=
  d.year * 372 + (d.month : Int) * 31 + (d.day : Int)

/-- Embedding of date-fns v3 isWithinInterval: the two interval bounds
are sorted before the closed-interval membership test, and any NaN
timestamp (Invalid Date or invalid bound) makes the comparisons false. -/
def isWithinInterval (d : Option SimpleDate) (s e : Option SimpleDate) : Bool :=
  match d, s, e with
  | some dv, some sv, some ev =>
    decide (min (dateKey sv) (dateKey ev) ≤ dateKey dv
        ∧ dateKey dv ≤ max (dateKey sv) (dateKey ev))
  | _, _, _ => false

/-- Zero-padded two-digit rendering. -/
def pad2 (n : Nat) : String := if n < 10 then "0" ++ toString n else toString n

/-- Four-digit year rendering for the years the program handles. -/
def pad4 (y : Int) : String :=
  if 0 ≤ y ∧ y < 10 then "000" ++ toString y
  else if 0 ≤ y ∧ y < 100 then "00" ++ toString y
  else if 0 ≤ y ∧ y < 1000 then "0" ++ toString y
  else toString y

/-- date-fns format with pattern yyyy-MM-dd on a valid date. -/
def formatISODate (d : SimpleDate) : String :=
  pad4 d.year ++ "-" ++ pad2 d.month ++ "-" ++ pad2 d.day

/-- The DateRange result of getDateRange (start, end, and their ISO
labels).  The source field name end is a Lean keyword and is rendered
endDate here. -/
structure DateRange where
  start : Option SimpleDate
  endDate : Option SimpleDate
  startISO : String
  endISO : String
deriving DecidableEq

/-- A runtime value accepted for a custom bound: a string (parsed with
parseISO) or an already-constructed Date (possibly Invalid). -/
inductive DateInput where
  | str (s : String)
  | date (d : Option SimpleDate)
deriving DecidableEq

/-- The CustomRange argument: either bound may be absent at runtime. -/
structure CustomRange where
  start : Option DateInput := none
  endDate : Option DateInput := none
deriving DecidableEq

/-- JavaScript truthiness of a custom bound: absent and the empty string
are falsy; every Date object (even an Invalid Date) is truthy. -/
def dateInputTruthy : Option DateInput → Bool
  | none => false
  | some (.str s) => s ≠ ""
  | some (.date _) => true

/-- The branch typeof start === string ? parseISO(start) : start. -/
def resolveDateInput : DateInput → Option SimpleDate
  | .str s => parseISO s
  | .date d => d

/-- The errors getDateRange can raise: the missing-custom-range Error,
the unknown-period Error, and the RangeError thrown by date-fns format
when handed an Invalid Date. -/
inductive DateRangeError where
  | invalidCustomRange
  | unknownPeriod (p : String)
  | invalidTimeValue
deriving DecidableEq

/-- The final step shared by all getDateRange branches: build the
DateRange and format both bounds with date-fns format, which throws a
RangeError when either is an Invalid Date. -/
def finishRange : Option SimpleDate × Option SimpleDate → Except DateRangeError DateRange
  | (some s, some e) => .ok ⟨some s, some e, formatISODate s, formatISODate e⟩
  | _ => .error .invalidTimeValue

/-- Embedding of getDateRange from dataUtils.ts.  The switch resolves
the period token to a start and end date (current time is a parameter);
the custom branch throws when the range object or either bound is falsy;
an unrecognized token throws.  The final step formats both dates with
date-fns format, which throws a RangeError on an Invalid Date, so a
present but unparsable custom bound also makes the call throw. -/
def getDateRange (period : String) (customRange : Option CustomRange) (now : SimpleDate) :
    Except DateRangeError DateRange :=
  if period = "current-month" then
    finishRange (some (startOfMonth now), some (endOfMonth now))
  else if period = "last-month" then
    finishRange (some (startOfMonth (subMonths1 now)), some (endOfMonth (subMonths1 now)))
  else if period = "current-year" then
    finishRange (some (startOfYear now), some (endOfYear now))
  else if period = "last-year" then
    finishRange (some (startOfYear (subYears1 now)), some (endOfYear (subYears1 now)))
  else if period = "custom" then
    match customRange with
    | none => .error .invalidCustomRange
    | some cr =>
      if ¬ dateInputTruthy cr.start ∨ ¬ dateInputTruthy cr.endDate then
        .error .invalidCustomRange
      else
        match cr.start, cr.endDate with
        | some s, some e => finishRange (resolveDateInput s, resolveDateInput e)
        | _, _ => .error .invalidCustomRange
  else .error (.unknownPeriod period)

deriving instance DecidableEq for Except

/-- The date string an expense resolves to: date, else expense_date,
else the empty string (JavaScript || chain). -/
def expenseDateString (e : Expense) : String :=
  jsOrStr e.date (jsOrStr e.expense_date (""))

/-- Embedding of filterExpensesByDate from dataUtils.ts: keep the
records whose parsed resolved date lies within the interval. -/
def filterExpensesByDate (expenses : List Expense) (startDate endDate : Option SimpleDate) :
    List Expense :=
  expenses.filter (fun e => isWithinInterval (parseISO (expenseDateString e)) startDate endDate)

/-!
Invoices, payments, and the orchestration of src/index.ts.
-/

/-- The Invoice record shape from invoiceNinjaClient.ts. -/
structure Invoice where
  id : Option String := none
  amount : AmountVal := .undef
  date : Option String := none
  invoice_date : Option String := none
  public_notes : Option String := none
  number : Option String := none
  client_name : Option String := none
  client : Option NamedRef := none
  status_id : Option String := none
  balance : AmountVal := .undef
  paid_to_date : AmountVal := .undef
deriving DecidableEq

/-- Modelled from the spec: the Payment record kind of the
expense+invoice+payment variant (its interface is not under src/); per
section 3 it generalizes FinancialRecord with a payment_date fallback
field and a client reference. -/
structure Payment where
  id : Option String := none
  amount : AmountVal := .undef
  date : Option String := none
  payment_date : Option String := none
  client_name : Option String := none
  client : Option NamedRef := none
  transaction_reference : Option String := none
deriving DecidableEq

/-- The date string an invoice resolves to (date, else invoice_date,
else empty). -/
def invoiceDateString (i : Invoice) : String :=
  jsOrStr i.date (jsOrStr i.invoice_date (""))

/-- The date string a payment resolves to (date, else payment_date,
else empty). -/
def paymentDateString (p : Payment) : String :=
  jsOrStr p.date (jsOrStr p.payment_date (""))

/-- Modelled from the spec: filterInvoicesByDate of the missing
dataUtils variant; per section 4.2 it applies the same closed-interval
membership test as filterExpensesByDate to the invoice date fallback
chain. -/
def filterInvoicesByDate (invoices : List Invoice) (startDate endDate : Option SimpleDate) :
    List Invoice :=
  invoices.filter (fun i => isWithinInterval (parseISO (invoiceDateString i)) startDate endDate)

/-- Modelled from the spec: filterPaymentsByDate of the missing
dataUtils variant, same contract for payments. -/
def filterPaymentsByDate (payments : List Payment) (startDate endDate : Option SimpleDate) :
    List Payment :=
  payments.filter (fun p => isWithinInterval (parseISO (paymentDateString p)) startDate endDate)

/-- Modelled from the spec: calculateInvoiceTotal, the sum of parsed
invoice amounts with 0 for the empty input (section 4.2 sum contract,
mirroring calculateTotal). -/
def calculateInvoiceTotal (invoices : List Invoice) : JSNum :=
  invoices.foldl (fun total i => jsAdd total (parseAmount i.amount)) (.num 0)

/-- Modelled from the spec: calculatePaymentTotal, the sum of parsed
payment amounts with 0 for the empty input. -/
def calculatePaymentTotal (payments : List Payment) : JSNum :=
  payments.foldl (fun total p => jsAdd total (parseAmount p.amount)) (.num 0)

/-- Modelled from the spec: getInvoiceStats, the statistics contract of
section 4.2 applied to invoices (all-zero on empty input). -/
def getInvoiceStats (invoices : List Invoice) : ExpenseStats :=
  if invoices.length = 0 then ⟨0, .num 0, .num 0, .num 0, .num 0⟩
  else
    let amounts := invoices.map (fun i => parseAmount i.amount)
    let total := amounts.foldl jsAdd (.num 0)
    ⟨invoices.length, total, jsDiv total (.num invoices.length),
      jsMinList amounts, jsMaxList amounts⟩

/-- Modelled from the spec: getPaymentStats, the statistics contract
applied to payments. -/
def getPaymentStats (payments : List Payment) : ExpenseStats :=
  if payments.length = 0 then ⟨0, .num 0, .num 0, .num 0, .num 0⟩
  else
    let amounts := payments.map (fun p => parseAmount p.amount)
    let total := amounts.foldl jsAdd (.num 0)
    ⟨payments.length, total, jsDiv total (.num payments.length),
      jsMinList amounts, jsMaxList amounts⟩

/-- Modelled from the spec: getUnpaidInvoices keeps the invoices whose
outstanding balance is strictly greater than zero, regardless of date
(section 4.2; the balance field goes through the same lenient numeric
parse). -/
def getUnpaidInvoices (invoices : List Invoice) : List Invoice :=
  invoices.filter (fun i => jsGtZero (parseAmount i.balance))

/-- Embedding of the totalUnpaidBalance reduce in src/index.ts: sum of
parseFloat(String(inv.balance || 0)) over the unpaid invoices. -/
def unpaidBalanceTotal (invoices : List Invoice) : JSNum :=
  invoices.foldl (fun s i => jsAdd s (parseAmount i.balance)) (.num 0)

/-- Embedding of the netAmount computation of src/index.ts (net is
based on actual payments received): payments total minus expense
total. -/
def netAmountCalc (sortedExpenses : List Expense) (sortedPayments : List Payment) : JSNum :=
  jsSub (calculatePaymentTotal sortedPayments) (calculateTotal sortedExpenses)

/-- Timestamp of the resolved date of a record for sorting: none models
a NaN comparator result, which the JavaScript sort treats as 0. -/
def expenseSortKey (e : Expense) : Option Int :=
  (parseISO (expenseDateString e)).map dateKey

/-- One stable insertion step: the new element goes before the first
already-placed element it does not have to follow. -/
def insertStableBy {α : Type} (lt : α → α → Bool) (e : α) : List α → List α
  | [] => [e]
  | x :: xs => if lt x e then x :: insertStableBy lt e xs else e :: x :: xs

/-- Stable sort by repeated insertion (models the stable JavaScript
Array.prototype.sort; a NaN comparator value is treated as equal, per
the ECMAScript SortCompare clause). -/
def stableSortBy {α : Type} (lt : α → α → Bool) : List α → List α
  | [] => []
  | x :: xs => insertStableBy lt x (stableSortBy lt xs)

/-- The strict comparator of sortByDate: did the comparator return a
negative number (NaN compares equal, hence false)? -/
def expenseDateLt (order : String) (a b : Expense) : Bool :=
  match expenseSortKey a, expenseSortKey b with
  | some ta, some tb => if order = "asc" then decide (ta < tb) else decide (tb < ta)
  | _, _ => false

/-- Embedding of sortByDate from dataUtils.ts: a stable, non-mutating
sort of the expenses by resolved date. -/
def sortByDate (expenses : List Expense) (order : String) : List Expense :=
  stableSortBy (expenseDateLt order) expenses

/-- Modelled from the spec: sortInvoicesByDate, the stable
chronological sort of section 4.2 applied to invoices. -/
def sortInvoicesByDate (invoices : List Invoice) (order : String) : List Invoice :=
  stableSortBy (fun a b =>
    match (parseISO (invoiceDateString a)).map dateKey,
        (parseISO (invoiceDateString b)).map dateKey with
    | some ta, some tb => if order = "asc" then decide (ta < tb) else decide (tb < ta)
    | _, _ => false) invoices

/-- Modelled from the spec: sortPaymentsByDate, the stable
chronological sort applied to payments. -/
def sortPaymentsByDate (payments : List Payment) (order : String) : List Payment :=
  stableSortBy (fun a b =>
    match (parseISO (paymentDateString a)).map dateKey,
        (parseISO (paymentDateString b)).map dateKey with
    | some ta, some tb => if order = "asc" then decide (ta < tb) else decide (tb < ta)
    | _, _ => false) payments

/-- Full English month name, as date-fns format MMMM renders it. -/
def monthName : Nat → String
  | 1 => "January" | 2 => "February" | 3 => "March" | 4 => "April"
  | 5 => "May" | 6 => "June" | 7 => "July" | 8 => "August"
  | 9 => "September" | 10 => "October" | 11 => "November" | 12 => "December"
  | _ => ""

/-- Abbreviated English month name, as date-fns format MMM renders it. -/
def monthAbbrev : Nat → String
  | 1 => "Jan" | 2 => "Feb" | 3 => "Mar" | 4 => "Apr"
  | 5 => "May" | 6 => "Jun" | 7 => "Jul" | 8 => "Aug"
  | 9 => "Sep" | 10 => "Oct" | 11 => "Nov" | 12 => "Dec"
  | _ => ""

/-- date-fns format with pattern MMMM yyyy. -/
def formatMonthYear (d : SimpleDate) : String :=
  monthName d.month ++ " " ++ pad4 d.year

/-- date-fns format with pattern MMM dd, yyyy. -/
def formatShortDate (d : SimpleDate) : String :=
  monthAbbrev d.month ++ " " ++ pad2 d.day ++ ", " ++ pad4 d.year

/-- Embedding of formatPeriodString from dataUtils.ts; date-fns format
throws a RangeError when handed an Invalid Date, which cannot happen on
a range produced by getDateRange (both bounds were already formatted
there). -/
def formatPeriodString (period : String) (dr : DateRange) : Except DateRangeError String :=
  match dr.start, dr.endDate with
  | some s, some e =>
    if period = "current-month" ∨ period = "last-month" then pure (formatMonthYear s)
    else if period = "current-year" ∨ period = "last-year" then pure (pad4 s.year)
    else pure (formatShortDate s ++ " - " ++ formatShortDate e)
  | _, _ => throw .invalidTimeValue

/-- The observable side effects of one report invocation, in order.
The paginated fetches are inputs of the model (RunEnv); console output
is not modelled. -/
inductive Effect where
  | renderPdf
  | writeFile
  | sendEmail
  | closeRenderer
deriving DecidableEq

/-- The failures of the collaborators during one invocation. -/
inductive RunError where
  | dateRange (e : DateRangeError)
  | renderError
  | emailError
deriving DecidableEq

/-- The stats object of a successful ReportResult in src/index.ts. -/
structure ReportStats where
  expenseCount : Nat
  incomeCount : Nat
  paymentCount : Nat
  unpaidInvoiceCount : Nat
  totalExpenses : JSNum
  totalIncome : JSNum
  totalPayments : JSNum
  totalUnpaidBalance : JSNum
  netAmount : JSNum
  period : String
deriving DecidableEq

/-- The ReportResult shape of src/index.ts. -/
structure ReportResult where
  success : Bool
  message : String
  stats : Option ReportStats := none
deriving DecidableEq

/-- What the environment feeds one invocation: the records returned by
the four paginated fetches, and whether the PDF renderer and the mail
transport succeed when invoked. -/
structure RunEnv where
  allExpenses : List Expense
  allInvoices : List Invoice
  allPayments : List Payment
  allInvoicesEver : List Invoice
  renderOk : Bool
  sendOk : Bool
deriving DecidableEq

/-- The options argument of generateAndSendReport. -/
structure ReportOptions where
  period : String := "current-month"
  customRange : Option CustomRange := none
  saveToFile : Bool := false
deriving DecidableEq

/-- Embedding of generateAndSendReport from src/index.ts as a function
from the fetched data and collaborator outcomes to the returned result
and the emitted effect trace.  The steps follow the source: resolve the
date range (a throw propagates), client-side filter, early return when
all three filtered lists are empty, sort, compute statistics and
totals, format the period label, render the PDF (a renderer failure
propagates after the render attempt), optionally write the file, send
the email (a transport failure propagates), close the renderer, return
success.  The catch block only logs and rethrows, so errors pass
through unchanged.  Pure console printing is not modelled. -/
def generateAndSendReportRun (opts : ReportOptions) (now : SimpleDate) (env : RunEnv) :
    Except RunError ReportResult × List Effect :=
  match getDateRange opts.period opts.customRange now with
  | .error e => (.error (.dateRange e), [])
  | .ok dateRange =>
    let unpaidInvoices := getUnpaidInvoices env.allInvoicesEver
    let filteredExpenses := filterExpensesByDate env.allExpenses dateRange.start dateRange.endDate
    let filteredInvoices := filterInvoicesByDate env.allInvoices dateRange.start dateRange.endDate
    let filteredPayments := filterPaymentsByDate env.allPayments dateRange.start dateRange.endDate
    if filteredExpenses.length = 0 ∧ filteredInvoices.length = 0 ∧
        filteredPayments.length = 0 then
      (.ok ⟨false, "No financial records found for the selected period", none⟩, [])
    else
      let sortedExpenses := sortByDate filteredExpenses ("asc")
      let sortedInvoices := sortInvoicesByDate filteredInvoices ("asc")
      let sortedPayments := sortPaymentsByDate filteredPayments ("asc")
      let expenseStats := getExpenseStats sortedExpenses
      let incomeStats := getInvoiceStats sortedInvoices
      let paymentStats := getPaymentStats sortedPayments
      let totalExpenses := calculateTotal sortedExpenses
      let totalIncome := calculateInvoiceTotal sortedInvoices
      let totalPayments := calculatePaymentTotal sortedPayments
      let totalUnpaidBalance := unpaidBalanceTotal unpaidInvoices
      let netAmount := jsSub totalPayments totalExpenses
      match formatPeriodString opts.period dateRange with
      | .error e => (.error (.dateRange e), [])
      | .ok periodString =>
        if ¬ env.renderOk then (.error .renderError, [.renderPdf])
        else
          let effs := [Effect.renderPdf] ++ (if opts.saveToFile then [Effect.writeFile] else [])
          if ¬ env.sendOk then (.error .emailError, effs ++ [.sendEmail])
          else
            (.ok ⟨true, "Report generated and sent successfully",
                some ⟨expenseStats.count, incomeStats.count, paymentStats.count,
                  unpaidInvoices.length, totalExpenses, totalIncome, totalPayments,
                  totalUnpaidBalance, netAmount, periodString⟩⟩,
              effs ++ [.sendEmail, .closeRenderer])

/-- Embedding of testInform from src/index.ts: same resolution,
filtering, early return and aggregation as generateAndSendReport, but
the PDF is always written to disk and no email is sent; the renderer is
closed after the write. -/
def testInformRun (opts : ReportOptions) (now : SimpleDate) (env : RunEnv) :
    Except RunError ReportResult × List Effect :=
  match getDateRange opts.period opts.customRange now with
  | .error e => (.error (.dateRange e), [])
  | .ok dateRange =>
    let unpaidInvoices := getUnpaidInvoices env.allInvoicesEver
    let filteredExpenses := filterExpensesByDate env.allExpenses dateRange.start dateRange.endDate
    let filteredInvoices := filterInvoicesByDate env.allInvoices dateRange.start dateRange.endDate
    let filteredPayments := filterPaymentsByDate env.allPayments dateRange.start dateRange.endDate
    if filteredExpenses.length = 0 ∧ filteredInvoices.length = 0 ∧
        filteredPayments.length = 0 then
      (.ok ⟨false, "No financial records found for the selected period", none⟩, [])
    else
      let sortedExpenses := sortByDate filteredExpenses ("asc")
      let sortedInvoices := sortInvoicesByDate filteredInvoices ("asc")
      let sortedPayments := sortPaymentsByDate filteredPayments ("asc")
      let expenseStats := getExpenseStats sortedExpenses
      let incomeStats := getInvoiceStats sortedInvoices
      let paymentStats := getPaymentStats sortedPayments
      let totalExpenses := calculateTotal sortedExpenses
      let totalIncome := calculateInvoiceTotal sortedInvoices
      let totalPayments := calculatePaymentTotal sortedPayments
      let totalUnpaidBalance := unpaidBalanceTotal unpaidInvoices
      let netAmount := jsSub totalPayments totalExpenses
      match formatPeriodString opts.period dateRange with
      | .error e => (.error (.dateRange e), [])
      | .ok periodString =>
        if ¬ env.renderOk then (.error .renderError, [.renderPdf])
        else
          (.ok ⟨true, "Test inform completed successfully",
              some ⟨expenseStats.count, incomeStats.count, paymentStats.count,
                unpaidInvoices.length, totalExpenses, totalIncome, totalPayments,
                totalUnpaidBalance, netAmount, periodString⟩⟩,
            [.renderPdf, .writeFile, .closeRenderer])

/-!
Concrete fixtures used by the theorems below.  The end-to-end fixture
is the one of section 8 of the specification: two March 2024 expenses
(100 Utilities, 40 Landscaping), one March 2024 invoice (500, client
Unit 4), no payments, custom period 2024-03-01 through 2024-03-31.
-/

/-- Section 8 fixture: first expense. -/
def fixtureExpense1 : Expense :=
  { amount := .num 100, date := some ("2024-03-01"), category_name := some ("Utilities") }

/-- Section 8 fixture: second expense. -/
def fixtureExpense2 : Expense :=
  { amount := .num 40, date := some ("2024-03-15"), category_name := some ("Landscaping") }

/-- Section 8 fixture: the invoice. -/
def fixtureInvoice1 : Invoice :=
  { amount := .num 500, date := some ("2024-03-10"), client_name := some ("Unit 4") }

/-- Section 8 fixture: the custom March 2024 range. -/
def marchRange : CustomRange :=
  ⟨some (.str "2024-03-01"), some (.str "2024-03-31")⟩

/-- Section 8 fixture: report options (custom period, the March range). -/
def fixtureOpts : ReportOptions := { period := "custom", customRange := some marchRange }

/-- Section 8 fixture: fetched data, both collaborators succeeding. -/
def fixtureEnv : RunEnv :=
  ⟨[fixtureExpense1, fixtureExpense2], [fixtureInvoice1], [], [], true, true⟩

/-- An arbitrary call time (the custom branch does not read it). -/
def fixtureNow : SimpleDate := ⟨2024, 6, 1⟩

/-!
Helper lemmas shared by the claim theorems.
-/

theorem jsAdd_nan_left (x : JSNum) : jsAdd .nan x = .nan := by cases x <;> rfl

theorem jsAdd_nan_right (x : JSNum) : jsAdd x .nan = .nan := by cases x <;> rfl

theorem jsAdd_num (a b : ℚ) : jsAdd (.num a) (.num b) = .num (a + b) := by
  simp [jsAdd, qAdd_eq]

theorem jsMin_num (a b : ℚ) : jsMin (.num a) (.num b) = .num (min a b) := rfl

theorem jsMax_num (a b : ℚ) : jsMax (.num a) (.num b) = .num (max a b) := rfl

theorem foldl_expense_total_nan (l : List Expense) :
    l.foldl (fun t e => jsAdd t (parseAmount e.amount)) .nan = .nan := by
  induction l with
  | nil => rfl
  | cons e l ih => simpa [jsAdd_nan_left] using ih

theorem foldl_jsAdd_num (qs : List ℚ) (a : ℚ) :
    (qs.map JSNum.num).foldl jsAdd (.num a) = .num (a + qs.sum) := by
  induction qs generalizing a with
  | nil => simp
  | cons q qs ih => simp [jsAdd_num, ih, add_assoc]

theorem foldl_jsMin_num (qs : List ℚ) (a : ℚ) :
    (qs.map JSNum.num).foldl jsMin (.num a) = .num (qs.foldl min a) := by
  induction qs generalizing a with
  | nil => rfl
  | cons q qs ih => simp [jsMin_num, ih]

theorem foldl_jsMax_num (qs : List ℚ) (a : ℚ) :
    (qs.map JSNum.num).foldl jsMax (.num a) = .num (qs.foldl max a) := by
  induction qs generalizing a with
  | nil => rfl
  | cons q qs ih => simp [jsMax_num, ih]

theorem calculateTotal_eq_map_foldl (l : List Expense) :
    calculateTotal l = (l.map (fun e => parseAmount e.amount)).foldl jsAdd (.num 0) := by
  rw [calculateTotal, List.foldl_map]

theorem calculateTotal_numeric (l : List Expense) (qs : List ℚ)
    (h : l.map (fun e => parseAmount e.amount) = qs.map JSNum.num) :
    calculateTotal l = .num qs.sum := by
  rw [calculateTotal_eq_map_foldl, h, foldl_jsAdd_num, zero_add]

theorem calculatePaymentTotal_numeric (l : List Payment) (qs : List ℚ)
    (h : l.map (fun p => parseAmount p.amount) = qs.map JSNum.num) :
    calculatePaymentTotal l = .num qs.sum := by
  rw [calculatePaymentTotal, ← List.foldl_map (fun p : Payment => parseAmount p.amount) jsAdd, h,
    foldl_jsAdd_num, zero_add]

theorem isWithinInterval_swap (d s e : Option SimpleDate) :
    isWithinInterval d s e = isWithinInterval d e s := by
  cases d <;> cases s <;> cases e <;>
    simp [isWithinInterval, min_comm, max_comm, and_comm]

/-!
Claim theorems.
-/

/-- C1 counterexample: a record whose amount is the unparsable string
N/A makes calculateTotal NaN, which differs from the total with that
amount replaced by 0, so such a record is not treated as contributing
0. -/
theorem calculateTotal_nA_counterexample :
    calculateTotal [{ amount := .str "N/A" }] = .nan
    ∧ calculateTotal [{ amount := .num 0 }] = .num 0
    ∧ calculateTotal [{ amount := .str "N/A" }] ≠ calculateTotal [{ amount := .num 0 }] := by
  decide

/-- C1 amended: an absent (or empty-string) amount contributes 0 to
calculateTotal and no error is raised, but a record whose amount string
has no parsable numeric prefix contributes NaN, which propagates so the
whole total becomes NaN rather than being treated as 0. -/
theorem calculateTotal_amount_defaulting :
    (∀ (l₁ l₂ : List Expense) (e : Expense), e.amount = .undef ∨ e.amount = .str "" →
        calculateTotal (l₁ ++ e :: l₂) =
          calculateTotal (l₁ ++ { e with amount := .num 0 } :: l₂))
    ∧ (∀ (l₁ l₂ : List Expense) (e : Expense), e.amount = .str "N/A" →
        calculateTotal (l₁ ++ e :: l₂) = .nan) := by
  constructor
  · intro l₁ l₂ e he
    have hpe : parseAmount e.amount = parseAmount (AmountVal.num 0) := by
      rcases he with h | h <;> rw [h] <;> rfl
    simp only [calculateTotal, List.foldl_append, List.foldl_cons, hpe]
  · intro l₁ l₂ e he
    have hpe : parseAmount e.amount = JSNum.nan := by rw [he]; decide
    simp only [calculateTotal, List.foldl_append, List.foldl_cons, hpe, jsAdd_nan_right]
    exact foldl_expense_total_nan l₂

/-- C1 amended witness: the defaulting clause at an absent amount and
the NaN clause at the amount N/A, after one plain numeric record. -/
theorem calculateTotal_amount_defaulting_witness :
    calculateTotal [fixtureExpense1, { amount := .undef }] =
        calculateTotal [fixtureExpense1, { amount := .num 0 }]
    ∧ calculateTotal [fixtureExpense1, { amount := .str "N/A" }] = .nan :=
  ⟨calculateTotal_amount_defaulting.1 [fixtureExpense1] [] { amount := .undef } (Or.inl rfl),
    calculateTotal_amount_defaulting.2 [fixtureExpense1] [] { amount := .str "N/A" } rfl⟩

/-- C2 (code bug): when the PDF render throws, generateAndSendReport
propagates the error after the render attempt without ever calling the
generator close (the cleanup is only reached on the success path, there
is no finally); the same holds when the email send throws; on the
success path close runs exactly once. -/
theorem pdfGenerator_close_skipped_on_failure :
    ((generateAndSendReportRun fixtureOpts fixtureNow
          { fixtureEnv with renderOk := false }).1 = .error .renderError
      ∧ (generateAndSendReportRun fixtureOpts fixtureNow
          { fixtureEnv with renderOk := false }).2 = [.renderPdf])
    ∧ ((generateAndSendReportRun { fixtureOpts with saveToFile := true } fixtureNow
          { fixtureEnv with sendOk := false }).1 = .error .emailError
      ∧ ((generateAndSendReportRun { fixtureOpts with saveToFile := true } fixtureNow
          { fixtureEnv with sendOk := false }).2.count .closeRenderer) = 0)
    ∧ ((generateAndSendReportRun fixtureOpts fixtureNow fixtureEnv).2.count
        .closeRenderer) = 1 := by
  decide

/-- C3 counterexample: getDateRange accepts the reversed custom range
(March 31 down to March 1, no ordering validation), and filtering a
list with that reversed interval keeps the record dated March 15 — the
result is not the empty list, because date-fns v3 sorts the interval
bounds. -/
theorem reversed_interval_filter_nonempty :
    getDateRange ("custom") (some ⟨some (.str "2024-03-31"), some (.str "2024-03-01")⟩)
        fixtureNow =
      .ok ⟨some ⟨2024, 3, 31⟩, some ⟨2024, 3, 1⟩, "2024-03-31", "2024-03-01"⟩
    ∧ filterExpensesByDate [fixtureExpense2] (some ⟨2024, 3, 31⟩) (some ⟨2024, 3, 1⟩) =
        [fixtureExpense2]
    ∧ filterExpensesByDate [fixtureExpense2] (some ⟨2024, 3, 31⟩) (some ⟨2024, 3, 1⟩) ≠ [] := by
  decide

/-- C3 amended: getDateRange performs no start-before-end validation
and succeeds on a reversed custom range of parseable dates, and
filtering with a reversed interval equals filtering with the two bounds
swapped (date-fns v3 normalizes the interval), so it returns the
records between the two bounds rather than always the empty list. -/
theorem filter_reversed_interval_normalizes :
    (∀ (l : List Expense) (s e : Option SimpleDate),
        filterExpensesByDate l s e = filterExpensesByDate l e s)
    ∧ getDateRange ("custom") (some ⟨some (.str "2024-03-31"), some (.str "2024-03-01")⟩)
        fixtureNow =
      .ok ⟨some ⟨2024, 3, 31⟩, some ⟨2024, 3, 1⟩, "2024-03-31", "2024-03-01"⟩ := by
  constructor
  · intro l s e
    simp only [filterExpensesByDate, isWithinInterval_swap]
  · decide

/-- C4 counterexample: on the section 8 fixture (expenses 100 and 40,
one invoice 500, no payments), the assembled stats have netAmount -140
(payments total 0 minus expense total 140), not the accrual 360 the
claim asserts for the payments-absent case. -/
theorem fixture_netAmount_neg140 :
    (generateAndSendReportRun fixtureOpts fixtureNow fixtureEnv).1 =
      .ok ⟨true, "Report generated and sent successfully",
        some ⟨2, 1, 0, 0, .num 140, .num 500, .num 0, .num 0, .num (-140),
          "Mar 01, 2024 - Mar 31, 2024"⟩⟩
    ∧ JSNum.num (-140) ≠ JSNum.num 360 := by
  decide

/-- C4 amended: netAmount is always the payments-received total minus
the expense total, independent of the invoiced total, whether or not
payment records are present; on numeric records it is the rational
difference of the two sums. -/
theorem netAmount_payments_minus_expenses (expenses : List Expense) (payments : List Payment)
    (qe qp : List ℚ)
    (he : expenses.map (fun e => parseAmount e.amount) = qe.map JSNum.num)
    (hp : payments.map (fun p => parseAmount p.amount) = qp.map JSNum.num) :
    netAmountCalc expenses payments = .num (qp.sum - qe.sum) := by
  rw [netAmountCalc, calculateTotal_numeric expenses qe he,
    calculatePaymentTotal_numeric payments qp hp]
  simp [jsSub, qSub_eq]

/-- C4 amended witness: the fixture expenses with no payments give the
negated expense sum. -/
theorem netAmount_payments_minus_expenses_witness :
    netAmountCalc [fixtureExpense1, fixtureExpense2] [] =
      .num (([] : List ℚ).sum - ([(100 : ℚ), 40]).sum) :=
  netAmount_payments_minus_expenses [fixtureExpense1, fixtureExpense2] [] [(100 : ℚ), 40] []
    (by decide) (by decide)

/-- C9: filterExpensesByDate is idempotent: filtering its own output by
the same interval returns it unchanged, for every record list and every
interval (the date-fns v3 membership predicate is total). -/
theorem filterExpensesByDate_idempotent (l : List Expense) (s e : Option SimpleDate) :
    filterExpensesByDate (filterExpensesByDate l s e) s e = filterExpensesByDate l s e := by
  simp [filterExpensesByDate, List.filter_filter]

/-- C10: when the client-side filters leave all three record lists
empty, both generateAndSendReport and testInform return success false
with the no-records message and no stats, emitting no render, file
write, email, or close effect, and raising no error. -/
theorem empty_period_early_return_no_effects
    (opts : ReportOptions) (now : SimpleDate) (env : RunEnv) (dr : DateRange)
    (hdr : getDateRange opts.period opts.customRange now = .ok dr)
    (hfe : filterExpensesByDate env.allExpenses dr.start dr.endDate = [])
    (hfi : filterInvoicesByDate env.allInvoices dr.start dr.endDate = [])
    (hfp : filterPaymentsByDate env.allPayments dr.start dr.endDate = []) :
    generateAndSendReportRun opts now env =
      (.ok ⟨false, "No financial records found for the selected period", none⟩, [])
    ∧ testInformRun opts now env =
      (.ok ⟨false, "No financial records found for the selected period", none⟩, []) := by
  constructor <;>
    simp only [generateAndSendReportRun, testInformRun, hdr, hfe, hfi, hfp,
      List.length_nil, and_self, if_true, true_and]

/-- C10 witness: the early return at the default period with nothing
fetched. -/
theorem empty_period_early_return_witness :
    generateAndSendReportRun ⟨"current-month", none, false⟩ fixtureNow
        ⟨[], [], [], [], true, true⟩ =
      (.ok ⟨false, "No financial records found for the selected period", none⟩, [])
    ∧ testInformRun ⟨"current-month", none, false⟩ fixtureNow ⟨[], [], [], [], true, true⟩ =
      (.ok ⟨false, "No financial records found for the selected period", none⟩, []) :=
  empty_period_early_return_no_effects ⟨"current-month", none, false⟩ fixtureNow
    ⟨[], [], [], [], true, true⟩
    ⟨some ⟨2024, 6, 1⟩, some ⟨2024, 6, 30⟩, "2024-06-01", "2024-06-30"⟩
    (by decide) (by decide) (by decide) (by decide)

/-- C8: for every call time, getDateRange current-month succeeds with
the start on day 1 of the current month and the end on the last
calendar day of the same month; the month length is always between 28
and 31 and follows the leap-year rule (February 2024 has 29 days,
February 2023 has 28). -/
theorem currentMonth_spans_calendar_month :
    (∀ now : SimpleDate,
        getDateRange ("current-month") none now =
          .ok ⟨some ⟨now.year, now.month, 1⟩,
            some ⟨now.year, now.month, daysInMonth now.year now.month⟩,
            formatISODate ⟨now.year, now.month, 1⟩,
            formatISODate ⟨now.year, now.month, daysInMonth now.year now.month⟩⟩)
    ∧ daysInMonth 2024 2 = 29 ∧ daysInMonth 2023 2 = 28
    ∧ (∀ (y : Int) (m : Nat), 28 ≤ daysInMonth y m ∧ daysInMonth y m ≤ 31) := by
  refine ⟨fun now => rfl, by decide, by decide, fun y m => ?_⟩
  simp only [daysInMonth]
  split_ifs <;> omega

/-- C7 counterexample: a custom range whose bounds are both present
(truthy) but whose start does not parse as a date still makes
getDateRange throw (date-fns format raises a RangeError on the
resulting Invalid Date), so the claimed only-if direction fails. -/
theorem custom_throws_though_present :
    getDateRange ("custom")
        (some ⟨some (.str "not-a-date"), some (.str "2024-03-01")⟩) fixtureNow =
      .error .invalidTimeValue
    ∧ dateInputTruthy (some (.str "not-a-date")) = true
    ∧ dateInputTruthy (some (.str "2024-03-01")) = true := by
  decide

/-- C7 amended: getDateRange('custom', r) throws the invalid-custom-
range error exactly when r is null or either bound is falsy (absent or
the empty string); with both bounds present it throws the RangeError of
date-fns format when either bound fails to parse to a valid date, and
succeeds otherwise; every token outside the five-token enumeration
throws the unknown-period error; the four calendar tokens never
throw. -/
theorem getDateRange_error_characterization :
    (∀ now : SimpleDate,
        getDateRange ("custom") none now = .error .invalidCustomRange)
    ∧ (∀ (cr : CustomRange) (now : SimpleDate),
        dateInputTruthy cr.start = false ∨ dateInputTruthy cr.endDate = false →
          getDateRange ("custom") (some cr) now = .error .invalidCustomRange)
    ∧ (∀ (cr : CustomRange) (s e : DateInput) (now : SimpleDate),
        cr.start = some s → cr.endDate = some e →
        dateInputTruthy cr.start = true → dateInputTruthy cr.endDate = true →
        (resolveDateInput s = none ∨ resolveDateInput e = none) →
          getDateRange ("custom") (some cr) now = .error .invalidTimeValue)
    ∧ (∀ (cr : CustomRange) (s e : DateInput) (sd ed : SimpleDate) (now : SimpleDate),
        cr.start = some s → cr.endDate = some e →
        dateInputTruthy cr.start = true → dateInputTruthy cr.endDate = true →
        resolveDateInput s = some sd → resolveDateInput e = some ed →
          getDateRange ("custom") (some cr) now =
            .ok ⟨some sd, some ed, formatISODate sd, formatISODate ed⟩)
    ∧ (∀ (p : String) (r : Option CustomRange) (now : SimpleDate),
        p ∉ (["current-month", "last-month", "current-year", "last-year", "custom"] :
            List String) →
          getDateRange p r now = .error (.unknownPeriod p))
    ∧ (∀ (p : String) (r : Option CustomRange) (now : SimpleDate),
        p ∈ (["current-month", "last-month", "current-year", "last-year"] : List String) →
          ∃ dr, getDateRange p r now = .ok dr) := by
  refine ⟨fun now => rfl, ?_, ?_, ?_, ?_, ?_⟩
  · intro cr now h
    rcases h with h | h <;> simp [getDateRange, h]
  · intro cr s e now hcs hce hts hte hresolve
    rcases hresolve with h | h <;>
      · rcases hrs : resolveDateInput s with _ | sd <;>
          rcases hre : resolveDateInput e with _ | ed <;>
          simp_all [getDateRange, finishRange]
  · intro cr s e sd ed now hcs hce hts hte hrs hre
    rw [hcs] at hts
    rw [hce] at hte
    simp [getDateRange, hcs, hce, hts, hte, hrs, hre, finishRange]
  · intro p r now hp
    simp only [List.mem_cons, List.not_mem_nil, or_false, not_or] at hp
    obtain ⟨h1, h2, h3, h4, h5⟩ := hp
    simp [getDateRange, h1, h2, h3, h4, h5]
  · intro p r now hp
    simp only [List.mem_cons, List.not_mem_nil, or_false] at hp
    rcases hp with h | h | h | h <;> subst h <;> exact ⟨_, rfl⟩

/-- C7 amended witness: the characterization at concrete inputs — a
null range throws invalid-custom-range, a present but unparsable bound
throws the format RangeError, an unknown token throws unknown-period,
and a calendar token succeeds. -/
theorem getDateRange_error_characterization_witness :
    getDateRange ("custom") none fixtureNow = .error .invalidCustomRange
    ∧ getDateRange ("custom") (some ⟨some (.str ""), some (.str "2024-03-01")⟩) fixtureNow =
        .error .invalidCustomRange
    ∧ getDateRange ("custom")
        (some ⟨some (.str "not-a-date"), some (.str "2024-03-01")⟩) fixtureNow =
        .error .invalidTimeValue
    ∧ getDateRange ("weekly") none fixtureNow = .error (.unknownPeriod "weekly")
    ∧ ∃ dr, getDateRange ("last-year") none fixtureNow = .ok dr :=
  ⟨getDateRange_error_characterization.1 fixtureNow,
    getDateRange_error_characterization.2.1 ⟨some (.str ""), some (.str "2024-03-01")⟩
      fixtureNow (Or.inl (by decide)),
    getDateRange_error_characterization.2.2.1 ⟨some (.str "not-a-date"),
      some (.str "2024-03-01")⟩ (.str "not-a-date") (.str "2024-03-01") fixtureNow rfl rfl
      (by decide) (by decide) (Or.inl (by decide)),
    getDateRange_error_characterization.2.2.2.2.1 ("weekly") none fixtureNow (by decide),
    getDateRange_error_characterization.2.2.2.2.2 ("last-year") none fixtureNow (by decide)⟩

/-- C5: getExpenseStats returns the list length as count, the sum of
the parsed amounts as total (the value calculateTotal computes), total
divided by count as average, all zeroes on the empty list with no
division error, and, whenever the parsed amounts are plain numbers, the
arithmetic sum and the mathematical minimum and maximum of those
amounts. -/
theorem getExpenseStats_spec_correct (l : List Expense) :
    (getExpenseStats l).count = l.length
    ∧ (getExpenseStats l).total = calculateTotal l
    ∧ (getExpenseStats l).average =
        (if l.length = 0 then .num 0 else jsDiv (calculateTotal l) (.num l.length))
    ∧ getExpenseStats [] = ⟨0, .num 0, .num 0, .num 0, .num 0⟩
    ∧ (∀ (q : ℚ) (qs : List ℚ),
        l.map (fun e => parseAmount e.amount) = (q :: qs).map JSNum.num →
          (getExpenseStats l).total = .num (q + qs.sum)
          ∧ (getExpenseStats l).min = .num (qs.foldl min q)
          ∧ (getExpenseStats l).max = .num (qs.foldl max q)) := by
  by_cases hl : l.length = 0
  · have hnil : l = [] := List.length_eq_zero.mp hl
    subst hnil
    refine ⟨rfl, rfl, rfl, rfl, ?_⟩
    intro q qs hmap
    simp at hmap
  · refine ⟨?_, ?_, ?_, rfl, ?_⟩
    · simp [getExpenseStats, hl]
    · simp [getExpenseStats, hl, calculateTotal_eq_map_foldl]
    · simp [getExpenseStats, hl, calculateTotal_eq_map_foldl]
    · intro q qs hmap
      refine ⟨?_, ?_, ?_⟩
      · simp [getExpenseStats, hl, hmap, jsAdd_num, foldl_jsAdd_num]
      · simp [getExpenseStats, hl, hmap, jsMinList, foldl_jsMin_num]
      · simp [getExpenseStats, hl, hmap, jsMaxList, foldl_jsMax_num]

/-- C5 witness: the statistics clauses instantiated on the two fixture
expenses (amounts 100 and 40). -/
theorem getExpenseStats_spec_correct_witness :
    (getExpenseStats [fixtureExpense1, fixtureExpense2]).total = .num (100 + [(40 : ℚ)].sum)
    ∧ (getExpenseStats [fixtureExpense1, fixtureExpense2]).min =
        .num ([(40 : ℚ)].foldl min 100)
    ∧ (getExpenseStats [fixtureExpense1, fixtureExpense2]).max =
        .num ([(40 : ℚ)].foldl max 100) :=
  (getExpenseStats_spec_correct [fixtureExpense1, fixtureExpense2]).2.2.2.2 100 [(40 : ℚ)]
    (by decide)

theorem sumParsedExpenses_append_singleton (xs : List Expense) (e : Expense) :
    sumParsedExpenses (xs ++ [e]) = jsAdd (sumParsedExpenses xs) (parseAmount e.amount) := by
  simp [sumParsedExpenses, List.foldl_append]

theorem bucketExpenses_nil (k : String) : bucketExpenses [] k = [] := rfl

theorem bucketExpenses_cons_eq (k₀ : String) (b : GroupedExpenses)
    (m : List (String × GroupedExpenses)) (k' : String) (h : k₀ = k') :
    bucketExpenses ((k₀, b) :: m) k' = b.expenses := by
  simp [bucketExpenses, List.find?, h]

theorem bucketExpenses_cons_ne (k₀ : String) (b : GroupedExpenses)
    (m : List (String × GroupedExpenses)) (k' : String) (h : ¬ k₀ = k') :
    bucketExpenses ((k₀, b) :: m) k' = bucketExpenses m k' := by
  have hb : (k₀ == k') = false := by
    simp only [beq_eq_false_iff_ne, ne_eq]
    exact h
  simp [bucketExpenses, List.find?, hb]

theorem bucketExpenses_insertByKey (m : List (String × GroupedExpenses)) (k k' : String)
    (e : Expense) :
    bucketExpenses (insertByKey m k e) k' =
      if k' = k then bucketExpenses m k' ++ [e] else bucketExpenses m k' := by
  induction m with
  | nil =>
    by_cases h : k' = k
    · subst h
      rw [if_pos rfl]
      simp [insertByKey, bucketExpenses, List.find?]
    · rw [if_neg h]
      have hb : (k == k') = false := by
        simp only [beq_eq_false_iff_ne, ne_eq]
        exact fun hh => h hh.symm
      simp [insertByKey, bucketExpenses, List.find?, hb]
  | cons p m ih =>
    obtain ⟨k₀, b⟩ := p
    by_cases h0 : k₀ = k
    · subst h0
      simp only [insertByKey, eq_self_iff_true, if_true]
      by_cases h : k₀ = k'
      · rw [bucketExpenses_cons_eq _ _ _ _ h, bucketExpenses_cons_eq _ _ _ _ h,
          if_pos h.symm]
      · rw [bucketExpenses_cons_ne _ _ _ _ h, bucketExpenses_cons_ne _ _ _ _ h,
          if_neg (fun hh => h (hh.symm))]
    · simp only [insertByKey, if_neg h0]
      by_cases h : k₀ = k'
      · rw [bucketExpenses_cons_eq _ _ _ _ h, bucketExpenses_cons_eq _ _ _ _ h,
          if_neg (fun hh : k' = k => h0 (h.trans hh))]
      · rw [bucketExpenses_cons_ne _ _ _ _ h, bucketExpenses_cons_ne _ _ _ _ h]
        exact ih

theorem bucketsJoin_insertByKey (m : List (String × GroupedExpenses)) (k : String)
    (e : Expense) :
    List.Perm (bucketsJoin (insertByKey m k e)) (bucketsJoin m ++ [e]) := by
  induction m with
  | nil => simp [insertByKey, bucketsJoin]
  | cons p m ih =>
    obtain ⟨k₀, b⟩ := p
    by_cases h0 : k₀ = k
    · subst h0
      simp only [insertByKey, eq_self_iff_true, if_true, bucketsJoin, List.foldr_cons,
        List.append_assoc]
      exact List.Perm.append_left b.expenses (List.perm_append_comm)
    · simp only [insertByKey, if_neg h0, bucketsJoin, List.foldr_cons, List.append_assoc]
      exact List.Perm.append_left b.expenses ih

theorem insertByKey_totals (m : List (String × GroupedExpenses)) (k : String) (e : Expense)
    (h : ∀ p ∈ m, p.2.total = sumParsedExpenses p.2.expenses) :
    ∀ p ∈ insertByKey m k e, p.2.total = sumParsedExpenses p.2.expenses := by
  induction m with
  | nil =>
    intro p hp
    simp [insertByKey] at hp
    subst hp
    rfl
  | cons p₀ m ih =>
    obtain ⟨k₀, b⟩ := p₀
    by_cases h0 : k₀ = k
    · subst h0
      intro p hp
      simp only [insertByKey, eq_self_iff_true, if_true, List.mem_cons] at hp
      rcases hp with hp | hp
      · subst hp
        have hb := h (k₀, b) (List.mem_cons_self _ _)
        simp only at hb
        simp [sumParsedExpenses_append_singleton, hb]
      · exact h p (List.mem_cons_of_mem _ hp)
    · intro p hp
      simp only [insertByKey, if_neg h0, List.mem_cons] at hp
      rcases hp with hp | hp
      · subst hp
        exact h (k₀, b) (List.mem_cons_self _ _)
      · exact ih (fun q hq => h q (List.mem_cons_of_mem _ hq)) p hp

theorem insertByKey_keys (m : List (String × GroupedExpenses)) (k : String) (e : Expense) :
    (insertByKey m k e).map Prod.fst =
      if k ∈ m.map Prod.fst then m.map Prod.fst else m.map Prod.fst ++ [k] := by
  induction m with
  | nil => simp [insertByKey]
  | cons p m ih =>
    obtain ⟨k₀, b⟩ := p
    by_cases h0 : k₀ = k
    · subst h0
      simp [insertByKey]
    · have hne : ¬ k = k₀ := fun hh => h0 hh.symm
      simp only [insertByKey, if_neg h0, List.map_cons, ih]
      by_cases hk : k ∈ m.map Prod.fst <;> simp [hk, hne]

theorem insertByKey_nodup (m : List (String × GroupedExpenses)) (k : String) (e : Expense)
    (h : (m.map Prod.fst).Nodup) : ((insertByKey m k e).map Prod.fst).Nodup := by
  rw [insertByKey_keys]
  by_cases hk : k ∈ m.map Prod.fst
  · simpa [hk] using h
  · simp only [if_neg hk]
    rw [List.nodup_append]
    refine ⟨h, List.nodup_singleton k, ?_⟩
    intro a ha hak
    rw [List.mem_singleton] at hak
    exact hk (hak ▸ ha)

theorem groupByCategory_foldl_buckets (l : List Expense)
    (acc : List (String × GroupedExpenses)) (k : String) :
    bucketExpenses (l.foldl (fun m e => insertByKey m (expenseCategoryKey e) e) acc) k =
      bucketExpenses acc k ++ l.filter (fun e => expenseCategoryKey e == k) := by
  induction l generalizing acc with
  | nil => simp
  | cons e l ih =>
    rw [List.foldl_cons, ih, bucketExpenses_insertByKey]
    by_cases h : k = expenseCategoryKey e
    · simp [List.filter_cons, h.symm]
    · have hbeq : (expenseCategoryKey e == k) = false := by
        simp [beq_iff_eq]
        exact fun hh => h hh.symm
      simp [List.filter_cons, hbeq, h]

theorem groupByCategory_foldl_join (l : List Expense)
    (acc : List (String × GroupedExpenses)) :
    List.Perm (bucketsJoin (l.foldl (fun m e => insertByKey m (expenseCategoryKey e) e) acc))
      (bucketsJoin acc ++ l) := by
  induction l generalizing acc with
  | nil => simp
  | cons e l ih =>
    rw [List.foldl_cons]
    refine (ih _).trans ?_
    refine (List.Perm.append_right l (bucketsJoin_insertByKey acc (expenseCategoryKey e) e)).trans
      ?_
    simp [List.append_assoc]

theorem groupByCategory_foldl_totals (l : List Expense)
    (acc : List (String × GroupedExpenses))
    (h : ∀ p ∈ acc, p.2.total = sumParsedExpenses p.2.expenses) :
    ∀ p ∈ l.foldl (fun m e => insertByKey m (expenseCategoryKey e) e) acc,
      p.2.total = sumParsedExpenses p.2.expenses := by
  induction l generalizing acc with
  | nil => exact h
  | cons e l ih =>
    rw [List.foldl_cons]
    exact ih _ (insertByKey_totals acc (expenseCategoryKey e) e h)

theorem groupByCategory_foldl_nodup (l : List Expense)
    (acc : List (String × GroupedExpenses)) (h : (acc.map Prod.fst).Nodup) :
    ((l.foldl (fun m e => insertByKey m (expenseCategoryKey e) e) acc).map Prod.fst).Nodup := by
  induction l generalizing acc with
  | nil => exact h
  | cons e l ih =>
    rw [List.foldl_cons]
    exact ih _ (insertByKey_nodup acc (expenseCategoryKey e) e h)

/-- C6: groupByCategory is a disjoint cover of its input: the bucket
stored under any key holds exactly the input records whose category key
is that key (so each record lands in exactly one bucket, determined
solely by its category, with a missing category falling into the
Uncategorized bucket); the concatenation of all buckets is a
permutation of the input (no record dropped or duplicated); bucket keys
are pairwise distinct; and every bucket total is the sum of its
members' parsed amounts. -/
theorem groupByCategory_disjoint_cover (l : List Expense) :
    (∀ k, bucketExpenses (groupByCategory l) k =
        l.filter (fun e => expenseCategoryKey e == k))
    ∧ List.Perm (bucketsJoin (groupByCategory l)) l
    ∧ (∀ p ∈ groupByCategory l, p.2.total = sumParsedExpenses p.2.expenses)
    ∧ ((groupByCategory l).map Prod.fst).Nodup
    ∧ (∀ e : Expense, e.category_name = none → e.category = none →
        expenseCategoryKey e = "Uncategorized") := by
  refine ⟨?_, ?_, ?_, ?_, ?_⟩
  · intro k
    simpa [bucketExpenses_nil] using groupByCategory_foldl_buckets l [] k
  · simpa [bucketsJoin] using groupByCategory_foldl_join l []
  · exact groupByCategory_foldl_totals l [] (by simp)
  · exact groupByCategory_foldl_nodup l [] (by simp)
  · intro e h1 h2
    simp [expenseCategoryKey, h1, h2, jsOrStr]

/-- C6 witness: the cover clauses on a two-record list whose second
record has no category (it falls into Uncategorized); the totals clause
at the Utilities bucket. -/
theorem groupByCategory_disjoint_cover_witness :
    bucketExpenses (groupByCategory [fixtureExpense1, { amount := .num 5 }]) ("Uncategorized") =
      List.filter (fun e => expenseCategoryKey e == "Uncategorized")
        [fixtureExpense1, { amount := .num 5 }]
    ∧ (("Utilities", (⟨[fixtureExpense1], .num 100⟩ : GroupedExpenses)) :
        String × GroupedExpenses).2.total = sumParsedExpenses [fixtureExpense1]
    ∧ expenseCategoryKey { amount := .num 5 } = "Uncategorized" := by
  refine ⟨(groupByCategory_disjoint_cover [fixtureExpense1, { amount := .num 5 }]).1
    ("Uncategorized"), ?_, ?_⟩
  · exact (groupByCategory_disjoint_cover [fixtureExpense1, { amount := .num 5 }]).2.2.1
      ("Utilities", (⟨[fixtureExpense1], .num 100⟩ : GroupedExpenses)) (by decide)
  · exact (groupByCategory_disjoint_cover [fixtureExpense1, { amount := .num 5 }]).2.2.2.2
      { amount := .num 5 } rfl rfl

